import Mathlib

set_option maxRecDepth 8000

/-!
Verification of the HPC job lifecycle subsystem of ln2t_tools.

Shallow embedding of `ln2t_tools/utils/hpc_status.py` and
`ln2t_tools/utils/slurm.py`. Pure functions become Lean functions; the
effectful pieces (subprocess calls, the JSON backing file, the polling
loop) become explicit parameters describing the results of those effects,
threaded through in the order the source performs them.
-/

namespace Ln2t

/-! ## Python string primitives -/

/-- ASCII uppercase of one character, the per-character action of the
Python `str.upper()` method on the ASCII range (all strings handled by
this code base are ASCII). -/
def asciiUpper (c : Char) : Char :=
  if c = 'a' then 'A' else if c = 'b' then 'B' else if c = 'c' then 'C'
  else if c = 'd' then 'D' else if c = 'e' then 'E' else if c = 'f' then 'F'
  else if c = 'g' then 'G' else if c = 'h' then 'H' else if c = 'i' then 'I'
  else if c = 'j' then 'J' else if c = 'k' then 'K' else if c = 'l' then 'L'
  else if c = 'm' then 'M' else if c = 'n' then 'N' else if c = 'o' then 'O'
  else if c = 'p' then 'P' else if c = 'q' then 'Q' else if c = 'r' then 'R'
  else if c = 's' then 'S' else if c = 't' then 'T' else if c = 'u' then 'U'
  else if c = 'v' then 'V' else if c = 'w' then 'W' else if c = 'x' then 'X'
  else if c = 'y' then 'Y' else if c = 'z' then 'Z' else c

/-- Python `s.upper()`: uppercase every character. -/
def pyUpper (s : String) : String :=
  ⟨s.data.map asciiUpper⟩

/-- Python `s.strip()`: drop leading and trailing whitespace. -/
def pyStrip (s : String) : String :=
  ⟨((s.data.dropWhile Char.isWhitespace).reverse.dropWhile Char.isWhitespace).reverse⟩

/-- Python `s.split(sep)` with a one-character separator, on character
lists: split at every separator, keeping empty pieces. -/
def splitOnChar (sep : Char) : List Char → List (List Char)
  | [] => [[]]
  | c :: t =>
    if c = sep then [] :: splitOnChar sep t
    else
      match splitOnChar sep t with
      | [] => [[c]]
      | h :: t' => (c :: h) :: t'

/-- Python `s.splitlines()`: split at newline characters.  This keeps a
final empty piece after a trailing newline where CPython drops it;
every caller in the source strips the pieces and drops the empty ones,
so the difference is immaterial there. -/
def splitOnNl (cs : List Char) : List (List Char) :=
  splitOnChar '\n' cs

/-- Python `sep.join(parts)`. -/
def joinWith (sep : String) : List String → String
  | [] => ""
  | [s] => s
  | s :: rest => s ++ sep ++ joinWith sep rest

/-- Python truthiness of an optional string: `None` and the empty string
are falsy, any other string is truthy. -/
def pyTruthy : Option String → Bool
  | none => false
  | some s => s ≠ ""

/-- Python `x or d` / `if not x: x = d` idiom on an optional string:
the default replaces `None` and the empty string. -/
def pyOr (o : Option String) (d : String) : String :=
  match o with
  | none => d
  | some s => if s = "" then d else s

/-- Does `pat` occur as a prefix of some suffix of `s`, that is, does
`pat` occur as a contiguous substring?  Computable counterpart of the
Python `in` operator on strings. -/
def containsPat (pat : List Char) : List Char → Bool
  | [] => pat.isPrefixOf []
  | c :: t => pat.isPrefixOf (c :: t) || containsPat pat t

/-- Python `pat in s` for strings. -/
def strContains (s pat : String) : Bool :=
  containsPat pat.data s.data

/-- Python `reason and pat in reason` on an optional reason string:
falsy `reason` (None or empty) gives `False`, otherwise substring test. -/
def reasonHas (reason : Option String) (pat : String) : Bool :=
  match reason with
  | none => false
  | some r => if r = "" then false else strContains r pat

/-- Worker for whitespace splitting: `acc` holds the reversed current
token. -/
def wsSplitAux : List Char → List Char → List (List Char)
  | [], acc => if acc = [] then [] else [acc.reverse]
  | c :: t, acc =>
    if c.isWhitespace then
      if acc = [] then wsSplitAux t [] else acc.reverse :: wsSplitAux t []
    else wsSplitAux t (c :: acc)

/-- Python `s.split()` with no argument: split on runs of whitespace,
discarding empty fields. -/
def pySplitWs (s : String) : List String :=
  (wsSplitAux s.data []).map fun l => ⟨l⟩

/-- Python `s.isdigit()` for ASCII strings: nonempty and all digits. -/
def pyIsDigit (s : String) : Bool :=
  s ≠ "" && s.data.all Char.isDigit

/-- Number of starting positions at which `pat` occurs in `s` (every
suffix of `s` is tested for having `pat` as a prefix). -/
def countOcc (pat : List Char) : List Char → Nat
  | [] => if pat.isPrefixOf [] then 1 else 0
  | c :: t => (if pat.isPrefixOf (c :: t) then 1 else 0) + countOcc pat t

/-- No nonempty proper prefix of `pat` is a suffix of `a`: a match of
`pat` that starts inside `a` cannot run off the end of `a`. -/
def cleanBreak (pat a : List Char) : Bool :=
  (List.range pat.length).all fun k => k == 0 || !((pat.take k).isSuffixOf a)

/-! ## hpc_status.py : data model -/

/-- Enum `JobStatus` of `hpc_status.py` (lines 33-41): the canonical
coarse status categories. -/
inductive JobStatus where
  | pending
  | running
  | completed
  | failed
  | timeout
  | cancelled
  | error
deriving DecidableEq, Repr

/-- Dataclass `JobInfo` of `hpc_status.py` (lines 44-58).  The open
`metadata` mapping carries tool-specific scalars; this core never
interprets it, so string values suffice for the embedding. -/
structure JobInfo where
  job_id : String
  tool : String
  dataset : String
  participant : String
  submit_time : String
  state : String := "UNKNOWN"
  exit_code : Option Int := none
  reason : Option String := none
  start_time : Option String := none
  end_time : Option String := none
  elapsed_time : Option String := none
  metadata : List (String × String) := []
deriving DecidableEq, Repr

/-- Property `JobInfo.status_category` of `hpc_status.py` (lines 70-98):
coarse status of the stored record, including the demotion of a
`COMPLETED` state with non-zero exit code. -/
def JobInfo.status_category (j : JobInfo) : JobStatus :=
  if pyUpper j.state = "PENDING" ∨ pyUpper j.state = "CONFIGURING" then .pending
  else if pyUpper j.state = "RUNNING" ∨ pyUpper j.state = "STAGE_OUT" then .running
  else if pyUpper j.state = "COMPLETED" then
    if j.exit_code = some 0 then .completed
    else if reasonHas j.reason "TIME_LIMIT" then .timeout
    else if reasonHas j.reason "OUT_OF_MEMORY" then .error
    else .failed
  else if pyUpper j.state = "CANCELLED" ∨ pyUpper j.state = "CANCELLED+" then
    if reasonHas j.reason "TIME_LIMIT" then .timeout else .cancelled
  else if pyUpper j.state = "FAILED" ∨ pyUpper j.state = "NODE_FAIL" then .failed
  else .error

/-- Function `_state_to_status` of `hpc_status.py` (lines 419-453):
mapping from a raw scheduler state plus optional end reason to the
canonical status.  Note it receives no exit code. -/
def state_to_status (state : String) (reason : Option String) : JobStatus :=
  if pyUpper state = "PENDING" ∨ pyUpper state = "CONFIGURING" then .pending
  else if pyUpper state = "RUNNING" ∨ pyUpper state = "STAGE_OUT" then .running
  else if pyUpper state = "COMPLETED" then .completed
  else if pyUpper state = "CANCELLED" ∨ pyUpper state = "CANCELLED+" then
    if reasonHas reason "TIME_LIMIT" then .timeout else .cancelled
  else if pyUpper state = "FAILED" ∨ pyUpper state = "NODE_FAIL" then
    if reasonHas reason "TIME_LIMIT" then .timeout else .failed
  else .error

/-- Result dictionary of `query_squeue_status` (`hpc_status.py` lines
272-280): the live-queue view of one job.  The parser always fills the
`state` key when it returns a dictionary. -/
structure SqueueInfo where
  job_id : String
  state : String
  start_time : Option String := none
  end_time : Option String := none
deriving DecidableEq, Repr

/-- Result dictionary of `query_sacct_status` (`hpc_status.py` lines
350-359): the historical-accounting view of one job. -/
structure SacctInfo where
  job_id : String
  state : String
  exit_code : Option Int := none
  reason : Option String := none
  start_time : Option String := none
  end_time : Option String := none
  elapsed_time : Option String := none
deriving DecidableEq, Repr

/-- Detail part of the `check_job_status` return value (`hpc_status.py`
lines 396-416): the raw source record the status was derived from, or
the `state=NOT_FOUND` marker. -/
inductive StatusDetail where
  | fromSqueue (i : SqueueInfo)
  | fromSacct (i : SacctInfo)
  | notFound
deriving DecidableEq, Repr

/-- Function `check_job_status` of `hpc_status.py` (lines 370-416) as a
pure function of the two query results.  The live-queue result is
consulted first and wins outright; the historical result is only used
when the live queue has no entry.  Faithful detail: on the live path the
state is uppercased and passed with `reason = None`; on the historical
path the local `exit_code` binding of the source is never forwarded to
`_state_to_status`. -/
def check_job_status (live : Option SqueueInfo) (hist : Option SacctInfo) :
    JobStatus × StatusDetail :=
  match live with
  | some info => (state_to_status (pyUpper info.state) none, .fromSqueue info)
  | none =>
    match hist with
    | some info => (state_to_status (pyUpper info.state) info.reason, .fromSacct info)
    | none => (.error, .notFound)

/-! ## hpc_status.py : job store -/

/-- One entry of the backing JSON object: either a dictionary that
`JobInfo.from_dict` accepts, or one it rejects (`TypeError`/`ValueError`,
skipped with a warning by `load_all_jobs`). -/
inductive StoredEntry where
  | good (j : JobInfo)
  | bad
deriving DecidableEq, Repr

/-- Exceptions the store code can let escape to its caller. -/
inductive PyExn where
  | attributeError
  | typeError
deriving DecidableEq, Repr

/-- State of the backing file `hpc_jobs.json`: absent; unreadable or
syntactically invalid JSON (`json.load` raises, which the source
catches); syntactically valid JSON whose top-level value is not an
object (an array, string, number, boolean or null — `json.load`
succeeds, so the catch clauses do not fire and the later dictionary
operations raise); or a well-formed JSON object given as an ordered
key-entry list. -/
inductive StoreFile where
  | absent
  | malformed
  | validNonObject
  | wellFormed (entries : List (String × StoredEntry))
deriving DecidableEq, Repr

/-- Python dict update `jobs[k] = v` on an ordered key-value list:
replace the first binding of `k` in place, else append. -/
def upsert (k : String) (v : StoredEntry) :
    List (String × StoredEntry) → List (String × StoredEntry)
  | [] => [(k, v)]
  | (k', v') :: rest => if k' = k then (k, v) :: rest else (k', v') :: upsert k v rest

/-- Function `load_all_jobs` of `hpc_status.py` (lines 146-174): an
absent file and unreadable or invalid JSON degrade to the empty store
(only `JSONDecodeError` and `IOError` are caught), and entries rejected
by `JobInfo.from_dict` are skipped; but when the file parses to a
non-object JSON value, `jobs_data.items()` raises `AttributeError`,
which no clause catches, so it escapes to the caller. -/
def load_all_jobs : StoreFile → Except PyExn (List (String × JobInfo))
  | .absent => .ok []
  | .malformed => .ok []
  | .validNonObject => .error .attributeError
  | .wellFormed es =>
      .ok (es.filterMap fun e =>
        match e.2 with
        | .good j => some (e.1, j)
        | .bad => none)

/-- Function `get_job_by_id` of `hpc_status.py` (lines 177-191): reads
through `load_all_jobs`, so its `AttributeError` propagates. -/
def get_job_by_id (f : StoreFile) (job_id : String) : Except PyExn (Option JobInfo) :=
  (load_all_jobs f).map fun jobs => jobs.lookup job_id

/-- Function `save_job_info` of `hpc_status.py` (lines 114-143):
read-entire-file (degrading to the empty dict on absence or on a read or
decode error), update the one key, write the whole object back.  The
read path keeps raw dictionaries, so entries that `JobInfo.from_dict`
would reject are preserved untouched; but when the file parses to a
non-object JSON value, the update `jobs[job_id] = ...` raises
`TypeError` before anything is written, and it escapes to the caller. -/
def save_job_info (job_info : JobInfo) (f : StoreFile) : Except PyExn StoreFile :=
  match f with
  | .validNonObject => .error .typeError
  | .wellFormed es => .ok (.wellFormed (upsert job_info.job_id (.good job_info) es))
  | _ => .ok (.wellFormed (upsert job_info.job_id (.good job_info) []))

/-- A concrete job record for evaluations of the store operations. -/
def sampleJob : JobInfo :=
  { job_id := "55821", tool := "meld_graph", dataset := "ds001", participant := "01", submit_time := "t" }

/-! ## slurm.py : script generation -/

namespace Slurm

/-- The fields of the argparse namespace that `slurm.py` reads.  Fields
the source fetches with `getattr(args, name, default)` are optional here
with the same default applied at use sites; `--slurm-gpus` and the GPU
memory limit are integers in the CLI. -/
structure Args where
  slurm : Bool := true
  slurm_user : Option String := none
  slurm_host : String := ""
  slurm_apptainer_dir : Option String := none
  slurm_rawdata : Option String := none
  slurm_derivatives : Option String := none
  slurm_partition : Option String := none
  slurm_time : String := ""
  slurm_mem : String := ""
  slurm_gpus : Nat := 1
  no_gpu : Bool := false
  harmonize : Bool := false
  version : Option String := none
  gpu_memory_limit : Nat := 128
  slurm_fs_license : Option String := none
  use_precomputed_fs : Bool := false
  slurm_fs_version : Option String := none
  fs_version : Option String := none
  harmo_code : Option String := none
  skip_segmentation : Bool := false
  participants_file : Option String := none
  participant_label : Option (List String) := none
deriving Repr

/-- One piece of the rendered script: a fixed template substring, or an
interpolated value.  `renderSegs` concatenates the pieces in order, so a
segment list denotes exactly the string the source builds by repeated
concatenation of f-strings. -/
inductive Seg where
  | lit (s : String)
  | var (s : String)

/-- Underlying string of a segment. -/
def Seg.str : Seg → String
  | .lit s => s
  | .var s => s

/-- Concatenation of all segments, in order. -/
def renderSegs : List Seg → String
  | [] => ""
  | sg :: rest => sg.str ++ renderSegs rest

/-- Job name (`slurm.py` lines 152-156). -/
def jobName (tool participant_label dataset : String) (args : Args) : String :=
  if tool = "meld_graph" ∧ args.harmonize then
    "meld_harmo-" ++ dataset ++ "-" ++ participant_label
  else
    tool ++ "-" ++ dataset ++ "-" ++ participant_label

/-- MELD container version (`slurm.py` line 167 and 251). -/
def meldVersion (args : Args) : String :=
  args.version.getD "v2.2.3"

/-- Apptainer image path on the cluster (`slurm.py` line 170). -/
def apptainerImg (args : Args) (hpc_apptainer_dir : String) : String :=
  hpc_apptainer_dir ++ "/meldproject.meld_graph." ++ meldVersion args ++ ".sif"

/-- GPU flag for apptainer (`slurm.py` lines 173-177). -/
def gpuFlag (args : Args) : String :=
  if args.no_gpu then "" else "--nv"

/-- Container environment variables (`slurm.py` lines 173-182). -/
def envVars (args : Args) : String :=
  if args.no_gpu then "--env CUDA_VISIBLE_DEVICES=\x27\x27"
  else
    "--env PYTORCH_CUDA_ALLOC_CONF=max_split_size_mb:" ++
      toString args.gpu_memory_limit ++ " --env CUDA_LAUNCH_BLOCKING=1"

/-- FreeSurfer license path argument (`slurm.py` lines 184-187). -/
def fsLicenseArg (args : Args) : String :=
  pyOr args.slurm_fs_license "$HOME/licenses/license.txt"

/-- Bind mount for precomputed FreeSurfer outputs (`slurm.py` lines
189-194); the version falls back through two attributes to `7.2.0`. -/
def fsSubjectsDirBind (args : Args) : String :=
  if args.use_precomputed_fs then
    "-B $HPC_DERIVATIVES/$DATASET-derivatives/freesurfer_" ++
      pyOr args.slurm_fs_version (pyOr args.fs_version "7.2.0") ++
      ":/data/output/fs_outputs"
  else ""

/-- Harmonisation code (`slurm.py` lines 200 and 433): attribute
`harmo_code` with the participant label as fallback. -/
def harmoCodeOf (args : Args) (participant_label : String) : String :=
  args.harmo_code.getD participant_label

/-- MELD pipeline command inside the container (`slurm.py` lines
198-212). -/
def pythonCmd (args : Args) (participant_label : String) : String :=
  if args.harmonize then
    "python scripts/new_patient_pipeline/new_pt_pipeline.py -harmo_code " ++
      harmoCodeOf args participant_label ++
      " -ids /data/subjects_list.txt -demos /data/demographics_" ++
      harmoCodeOf args participant_label ++ ".csv --harmo_only"
  else
    "python scripts/new_patient_pipeline/new_pt_pipeline.py -id sub-" ++ participant_label ++
    (match args.harmo_code with
     | some hc => if hc = "" then "" else " -harmo_code " ++ hc
     | none => "") ++
    (if args.skip_segmentation then " --skip_feature_extraction" else "")

/-- The main apptainer command (`slurm.py` lines 214-225). -/
def mainCmd (args : Args) (participant_label hpc_apptainer_dir : String) : String :=
  "apptainer exec " ++ gpuFlag args ++
  " -B $HPC_DERIVATIVES/$DATASET-derivatives/meld_graph_$MELD_VERSION/data:/data -B " ++
  fsLicenseArg args ++ ":/license.txt:ro --env FS_LICENSE=/license.txt " ++
  envVars args ++ " " ++ fsSubjectsDirBind args ++ " " ++
  apptainerImg args hpc_apptainer_dir ++
  " /bin/bash -c \x27cd /app && " ++ pythonCmd args participant_label ++ "\x27"

/-- Subject labels for harmonisation (`slurm.py` lines 326-342): lines
of the local participants file (stripped, empties dropped) when the file
option is set and the file exists, else the participant label list.
`participants_text` is the content of the participants file as read from
the local filesystem, `none` when the file does not exist. -/
def subjectLabels (args : Args) (participants_text : Option String) : List String :=
  let fromFile : List String :=
    match args.participants_file with
    | some pf =>
      if pf = "" then []
      else
        match participants_text with
        | some text =>
          ((splitOnNl text.data).map (fun l => pyStrip ⟨l⟩)).filter (fun s => s ≠ "")
        | none => []
    | none => []
  if fromFile = [] then
    match args.participant_label with
    | some l => if l = [] then [] else l
    | none => []
  else fromFile

/-- Normalised subject lines (`slurm.py` lines 344-352): strip, drop
empties, ensure the `sub-` prefix. -/
def normalizedLines (args : Args) (participants_text : Option String) : List String :=
  (((subjectLabels args participants_text).map pyStrip).filter (fun s => s ≠ "")).map
    fun s => if s.startsWith "sub-" then s else "sub-" ++ s

/-- Content written to `subjects_list.txt` (`slurm.py` line 356). -/
def subjectsListContent (args : Args) (participants_text : Option String) : String :=
  joinWith "\n" (normalizedLines args participants_text) ++ "\n"

/-- The embedded demographics Python snippet (`slurm.py` lines 358-424),
a fixed string; split in four parts to keep each literal small. -/
def pythonSnippet1 : String :=
  "\nimport os, sys\nimport pandas as pd\nimport pathlib as p\n\nsubjects = []\nwith open(\"/data/subjects_list.txt\") as f:\n    for line in f:\n        s = line.strip()\n        if s:\n            if not s.startswith(\"sub-\"):\n                s = \"sub-\" + s\n            subjects.append(s)\n\nptsv = \"/data/input/participants.tsv\"\nif not os.path.exists(ptsv):\n    print(\"participants.tsv not found:\", ptsv, file=sys.stderr)\n    sys.exit(1)\n\ndf = pd.read_csv(ptsv, sep=\"\t\")\ndf = df[df.get(\"participant_id\", pd.Series(dtype=str)).isin(subjects)].copy()\nif df.empty:\n    print(\"No matching participants in participants.tsv\", file=sys.stderr)\n    sys.exit(1)\n"

/-- Second part of the demographics snippet. -/
def pythonSnippet2 : String :=
  "\ndemo = pd.DataFrame()\ndemo[\"ID\"] = df[\"participant_id\"]\ndemo[\"Harmo code\"] = os.environ.get(\"HARMOCODE\", \"H1\")\n\nif \"group\" in df.columns:\n    grp = df[\"group\"].astype(str).str.lower()\n    demo[\"Group\"] = grp.where(grp.isin([\"patient\",\"control\"]), \"patient\")\nelse:\n    demo[\"Group\"] = \"patient\"\n\nage_col = None\nfor c in [\"age\",\"Age\",\"age_at_preoperative\",\"Age at preoperative\"]:\n    if c in df.columns:\n        age_col = c\n        break\n"

/-- Third part of the demographics snippet. -/
def pythonSnippet3 : String :=
  "if not age_col:\n    print(\"Age column not found in participants.tsv\", file=sys.stderr)\n    sys.exit(1)\ndemo[\"Age at preoperative\"] = pd.to_numeric(df[age_col], errors=\"coerce\")\nif demo[\"Age at preoperative\"].isna().any():\n    print(\"Missing or invalid age values in participants.tsv for selected subjects\", file=sys.stderr)\n    sys.exit(1)\n\nsex_col = None\nfor c in [\"sex\",\"Sex\",\"gender\",\"Gender\"]:\n    if c in df.columns:\n        sex_col = c\n        break\n"

/-- Fourth part of the demographics snippet. -/
def pythonSnippet4 : String :=
  "if not sex_col:\n    print(\"Sex column not found in participants.tsv\", file=sys.stderr)\n    sys.exit(1)\nsex_map = \x7b\"M\":\"male\",\"m\":\"male\",\"male\":\"male\",\"Male\":\"male\",\n           \"F\":\"female\",\"f\":\"female\",\"female\":\"female\",\"Female\":\"female\"\x7d\ndemo[\"Sex\"] = df[sex_col].map(sex_map)\nif demo[\"Sex\"].isna().any():\n    print(\"Invalid sex values for selected subjects\", file=sys.stderr)\n    sys.exit(1)\n\nout = \"/data/demographics_\" + os.environ.get(\"HARMOCODE\",\"H1\") + \".csv\"\ndemo.to_csv(out, index=False)\nprint(\"Created demographics:\", out)\n"

/-- Header segments (`slurm.py` lines 231-243): shebang, job name,
optional partition line, time, memory, output and error files. -/
def headerSegs (tool participant_label dataset : String) (args : Args) : List Seg :=
  let jn := jobName tool participant_label dataset args
  [.lit "#!/bin/bash\n#SBATCH --job-name=", .var jn, .lit "\n"] ++
  (if pyTruthy args.slurm_partition then
    [.lit "#SBATCH --partition=", .var (args.slurm_partition.getD ""), .lit "\n"]
   else []) ++
  [.lit "#SBATCH --time=", .var args.slurm_time,
   .lit "\n#SBATCH --mem=", .var args.slurm_mem,
   .lit "\n#SBATCH --output=", .var jn,
   .lit "_%j.out\n#SBATCH --error=", .var jn,
   .lit "_%j.err\n"]

/-- GPU request line (`slurm.py` lines 245-247): emitted exactly when
`--no-gpu` was not given, carrying `args.slurm_gpus`. -/
def gresSegs (args : Args) : List Seg :=
  if args.no_gpu then []
  else [.lit "#SBATCH --gres=gpu:", .var (toString args.slurm_gpus), .lit "\n"]

/-- First fixed chunk of the MELD directory setup block (`slurm.py`
lines 255-289). -/
def meldSetupLit1 : String :=
  "\"\n\n# Setup MELD directory structure on HPC\necho \"Creating MELD directory structure...\"\nMELD_DATA_DIR=\"$HPC_DERIVATIVES/$DATASET-derivatives/meld_graph_$MELD_VERSION/data\"\nmkdir -p $MELD_DATA_DIR/input\nmkdir -p $MELD_DATA_DIR/output/predictions_reports\nmkdir -p $MELD_DATA_DIR/output/fs_outputs\nmkdir -p $MELD_DATA_DIR/output/preprocessed_surf_data\n\n# Create MELD configuration files in the input directory\n# These must be in input/ where MELD expects them\nMELD_CONFIG_FILE=\"$MELD_DATA_DIR/input/meld_bids_config.json\"\nif [ ! -f \"$MELD_CONFIG_FILE\" ]; then\n    echo \"Creating MELD BIDS config file at $MELD_CONFIG_FILE...\"\n    cat > \"$MELD_CONFIG_FILE\" << \x27EOF\x27\n"

/-- Second fixed chunk: the BIDS config heredoc and the start of the
dataset description heredoc (`slurm.py` lines 276-296). -/
def meldSetupLit2 : String :=
  "\x7b\n  \"T1\": \x7b\n    \"session\": null,\n    \"datatype\": \"anat\",\n    \"suffix\": \"T1w\"\n  \x7d,\n  \"FLAIR\": \x7b\n    \"session\": null,\n    \"datatype\": \"anat\",\n    \"suffix\": \"FLAIR\"\n  \x7d\n\x7d\nEOF\nfi\n\nDATASET_DESC_FILE=\"$MELD_DATA_DIR/input/dataset_description.json\"\nif [ ! -f \"$DATASET_DESC_FILE\" ]; then\n    echo \"Creating dataset description file at $DATASET_DESC_FILE...\"\n    cat > \"$DATASET_DESC_FILE\" << \x27EOF\x27\n\x7b\n  \"Name\": \""

/-- Third fixed chunk: rest of the dataset description heredoc and the
symlink loop (`slurm.py` lines 296-313). -/
def meldSetupLit3 : String :=
  "\",\n  \"BIDSVersion\": \"1.6.0\"\n\x7d\nEOF\nfi\n\n# Create symlinks from MELD input to raw data\n# This way config files stay in place and MELD can access the raw data\necho \"Creating symlinks to raw data...\"\nfor subj_dir in $HPC_RAWDATA/$DATASET-rawdata/sub-*; do\n    if [ -d \"$subj_dir\" ]; then\n        subj=$(basename $subj_dir)\n        if [ ! -e \"$MELD_DATA_DIR/input/$subj\" ]; then\n            ln -s \"$subj_dir\" \"$MELD_DATA_DIR/input/$subj\"\n            echo \"  Linked $subj\"\n        fi\n    fi\ndone\n"

/-- Fourth fixed chunk: the participants.tsv link (`slurm.py` lines
315-322). -/
def meldSetupLit4 : String :=
  "\n# Link participants.tsv if present (used to build demographics)\nif [ -f \"$HPC_RAWDATA/$DATASET-rawdata/participants.tsv\" ]; then\n    ln -sf \"$HPC_RAWDATA/$DATASET-rawdata/participants.tsv\" \"$MELD_DATA_DIR/input/participants.tsv\"\n    echo \"Linked participants.tsv\"\nelse\n    echo \"Warning: participants.tsv not found at $HPC_RAWDATA/$DATASET-rawdata/participants.tsv\"\nfi\n"

/-- MELD directory setup block (`slurm.py` lines 250-322): data path
variables followed by the fixed directory and config setup. -/
def meldSetupSegs (dataset : String) (args : Args)
    (hpc_rawdata hpc_derivatives : Option String) : List Seg :=
  [.lit "\n# Define data paths (will be evaluated on cluster)\nHPC_RAWDATA=\"",
   .var (pyOr hpc_rawdata "$GLOBALSCRATCH/rawdata"),
   .lit "\"\nHPC_DERIVATIVES=\"",
   .var (pyOr hpc_derivatives "$GLOBALSCRATCH/derivatives"),
   .lit "\"\nDATASET=\"", .var dataset,
   .lit "\"\nMELD_VERSION=\"", .var (meldVersion args),
   .lit meldSetupLit1, .lit meldSetupLit2, .var dataset,
   .lit meldSetupLit3, .lit meldSetupLit4]

/-- Harmonisation block (`slurm.py` lines 324-447).  Inside the
f-string of lines 425-445 the single backslashes before the newlines are
Python line continuations, so the apptainer invocation renders as one
long line.  When no subject labels could be collected, nothing is added
to the script. -/
def harmoSegs (participant_label : String) (args : Args)
    (participants_text : Option String) (hpc_apptainer_dir : String) : List Seg :=
  if normalizedLines args participants_text = [] then []
  else
    [.lit "\n# Write subjects list for harmonization\nSUBJECTS_LIST_FILE=\"$MELD_DATA_DIR/subjects_list.txt\"\ncat > \"$SUBJECTS_LIST_FILE\" << \x27EOF\x27\n",
     .var (subjectsListContent args participants_text),
     .lit "EOF\necho \"Wrote subjects list to $SUBJECTS_LIST_FILE\"\n\n# Set harmonization code for demographics\nHARMOCODE=\"",
     .var (harmoCodeOf args participant_label),
     .lit "\"\n\n# Generate demographics CSV inside the container using participants.tsv\napptainer exec ",
     .var (gpuFlag args),
     .lit "     -B $MELD_DATA_DIR:/data     -B ",
     .var (fsLicenseArg args),
     .lit ":/license.txt:ro     --env FS_LICENSE=/license.txt     --env HARMOCODE=\"$HARMOCODE\"     ",
     .var (apptainerImg args hpc_apptainer_dir),
     .lit "     /bin/bash -c \x27python - << \"PY\"\n",
     .lit pythonSnippet1, .lit pythonSnippet2, .lit pythonSnippet3, .lit pythonSnippet4,
     .lit "\nPY\x27\n"]

/-- First fixed chunk of the footer (`slurm.py` lines 449-464). -/
def footerLit1 : String :=
  "\n# Load required modules (adjust based on HPC configuration)\n# module load apptainer  # Uncomment if needed\n\n# Print job information\necho \"Job started at: $(date)\"\necho \"Running on node: $(hostname)\"\necho \"Job ID: $SLURM_JOB_ID\"\n\n# Check if MELD parameters and models are available, download if needed\nif [ ! -d \"$MELD_DATA_DIR/meld_params/fsaverage_sym\" ] || [ ! -d \"$MELD_DATA_DIR/models\" ]; then\n    echo \"MELD parameters or models not found, downloading...\"\n    echo \"This is a one-time download and may take several minutes.\"\n    \n    # Run prepare_classifier.py to download meld_params and models\n    apptainer exec "

/-- Second fixed chunk of the footer (`slurm.py` lines 469-481). -/
def footerLit2 : String :=
  " \\\n        /bin/bash -c \x27cd /app && python scripts/new_patient_pipeline/prepare_classifier.py --skip-config\x27\n    \n    if [ $? -eq 0 ]; then\n        echo \"\u2713 Successfully downloaded MELD parameters and models\"\n    else\n        echo \"\u2717 Failed to download MELD parameters and models\"\n        exit 1\n    fi\nelse\n    echo \"\u2713 MELD parameters and models already available\"\nfi\n\n# Run the main command\n"

/-- Footer block (`slurm.py` lines 449-486), with the literal
backslash-newline shell continuations of the doubled backslashes. -/
def footerSegs (participant_label : String) (args : Args)
    (hpc_apptainer_dir : String) : List Seg :=
  [.lit footerLit1,
   .var (gpuFlag args),
   .lit " \\\n        -B $MELD_DATA_DIR:/data \\\n        -B ",
   .var (fsLicenseArg args),
   .lit ":/license.txt:ro \\\n        --env FS_LICENSE=/license.txt \\\n        ",
   .var (apptainerImg args hpc_apptainer_dir),
   .lit footerLit2,
   .var (mainCmd args participant_label hpc_apptainer_dir),
   .lit "\n\n# Print completion\necho \"Job finished at: $(date)\"\n"]

/-- All segments of the script rendered for the `meld_graph` tool
(`slurm.py` lines 229-488). -/
def scriptSegs (tool participant_label dataset : String) (args : Args)
    (hpc_rawdata hpc_derivatives : Option String) (hpc_apptainer_dir : String)
    (participants_text : Option String) : List Seg :=
  headerSegs tool participant_label dataset args ++
  gresSegs args ++
  meldSetupSegs dataset args hpc_rawdata hpc_derivatives ++
  (if args.harmonize then harmoSegs participant_label args participants_text hpc_apptainer_dir
   else []) ++
  footerSegs participant_label args hpc_apptainer_dir

/-- Function `generate_slurm_script` of `slurm.py` (lines 119-488).  For
any tool other than `meld_graph` a `NotImplementedError` is raised
before any script text is assembled; this is the `.error` result.
`participants_text` models the one local filesystem read of the
harmonisation branch. -/
def generate_slurm_script (tool participant_label dataset : String) (args : Args)
    (hpc_rawdata hpc_derivatives : Option String) (hpc_apptainer_dir : String)
    (participants_text : Option String) : Except String String :=
  if tool = "meld_graph" then
    .ok (renderSegs (scriptSegs tool participant_label dataset args
      hpc_rawdata hpc_derivatives hpc_apptainer_dir participants_text))
  else
    .error ("SLURM submission for " ++ tool ++ " not yet implemented")

/-! ## slurm.py : submission -/

/-- Python f-string interpolation of an optional value: `None` prints as
the string `None`. -/
def pyStr : Option String → String
  | none => "None"
  | some s => s

/-- Exceptions that `submit_slurm_job` lets escape to its caller:
`ValueError` from `validate_slurm_config` (line 518) and
`NotImplementedError` from `generate_slurm_script` (line 534, outside
the try block). -/
inductive SubmitRaise where
  | valueError (msg : String)
  | notImplemented (msg : String)
deriving DecidableEq, Repr

/-- Function `validate_slurm_config` of `slurm.py` (lines 63-79): with
`--slurm`, both `--slurm-user` and `--slurm-apptainer-dir` must be
truthy, else `ValueError` (message abbreviated here). -/
def validate_slurm_config (args : Args) : Except SubmitRaise Unit :=
  if args.slurm ∧ (¬ pyTruthy args.slurm_user ∨ ¬ pyTruthy args.slurm_apptainer_dir) then
    .error (.valueError "When using --slurm, you must provide the missing arguments")
  else .ok ()

/-- Outcomes of the effectful steps of `submit_slurm_job`, in the order
the source performs them: the SSH probe (lines 525-527), the remote
mkdir (lines 551-557), the scp copy (lines 560-567) and the sbatch run
(lines 570-577).  A `false` or `none` models the corresponding
subprocess failure (`CalledProcessError` for the checked runs). -/
structure SubmitEnv where
  ssh_ok : Bool
  mkdir_ok : Bool
  scp_ok : Bool
  sbatch_result : Option String
deriving Repr

/-- Job-id parsing applied to the stripped sbatch stdout
(`slurm.py` lines 579-613): the output must contain the phrase
`Submitted batch job`, split into at least four whitespace tokens, and
the fourth token must be purely numeric; that token is the job id. -/
def parse_sbatch_output (output : String) : Option String :=
  if strContains output "Submitted batch job" then
    if 4 ≤ (pySplitWs output).length then
      if pyIsDigit ((pySplitWs output).getD 3 "") then some ((pySplitWs output).getD 3 "")
      else none
    else none
  else none

/-- Function `submit_slurm_job` of `slurm.py` (lines 491-621) as a pure
function of the outcomes of its effectful steps.  It validates, probes
the connection, renders the script, copies and submits it, and parses
the job id; every failure after validation returns `none`.  The local
job store is threaded through so that claims about it can be stated;
the source body never reads or writes the store on this path, so every
exit returns it unchanged. -/
def submit_slurm_job (tool participant_label dataset : String) (args : Args)
    (participants_text : Option String) (env : SubmitEnv) (store : StoreFile) :
    Except SubmitRaise (Option String × StoreFile) :=
  match validate_slurm_config args with
  | .error e => .error e
  | .ok _ =>
    if ¬ env.ssh_ok then .ok (none, store)
    else
      match generate_slurm_script tool participant_label dataset args
          args.slurm_rawdata args.slurm_derivatives
          (pyStr args.slurm_apptainer_dir) participants_text with
      | .error msg => .error (.notImplemented msg)
      | .ok _script =>
        if ¬ env.mkdir_ok then .ok (none, store)
        else if ¬ env.scp_ok then .ok (none, store)
        else
          match env.sbatch_result with
          | none => .ok (none, store)
          | some out => .ok (parse_sbatch_output (pyStrip out), store)

/-! ## slurm.py : status checking and monitoring -/

/-- Parsed row of the squeue output of `slurm.py` `check_job_status`
(lines 649-657). -/
structure SlurmQueueStatus where
  state : String
  time_used : String
  time_left : String
deriving DecidableEq, Repr

/-- Outcome of one `subprocess.run` of the status query: completion with
a return code and stdout, a timeout, or another raised exception
(connection failure and the like). -/
inductive CmdOutcome where
  | done (returncode : Int) (stdout : String)
  | timedOut
  | raised
deriving DecidableEq, Repr

/-- The remote command of the status query (`slurm.py` line 641). -/
def squeue_status_command (job_id : String) : String :=
  "squeue -j " ++ job_id ++ " --format=\x27%T|%M|%L\x27"

/-- Function `check_job_status` of `slurm.py` (lines 623-661) as a pure
function of the subprocess outcome.  A nonzero return code, fewer than
two output lines, a row that does not split into exactly three fields, a
timeout and any other exception all collapse to `none`; only a parsed
queue row is returned. -/
def check_job_status (o : CmdOutcome) : Option SlurmQueueStatus :=
  match o with
  | .done rc out =>
    if rc = 0 then
      match splitOnChar '\n' (pyStrip out).data with
      | _ :: second :: _ =>
        match splitOnChar '|' second with
        | [state, time_used, time_left] =>
          some ⟨⟨state⟩, ⟨time_used⟩, ⟨time_left⟩⟩
        | _ => none
      | _ => none
    else none
  | .timedOut => none
  | .raised => none

/-- One event seen by the monitoring loop: a poll (with the outcome of
its status query) or a `KeyboardInterrupt` arriving during the wait. -/
inductive PollEvent where
  | poll (o : CmdOutcome)
  | interrupt

/-- Result of a monitor run: the returned boolean (`none` when the given
event trace ran out with the loop still going), the remote commands
issued, and the final local job store. -/
structure MonitorResult where
  result : Option Bool
  cmds : List String
  store : StoreFile
deriving Repr

/-- Function `monitor_job` of `slurm.py` (lines 664-707) over a trace of
events.  A poll whose status query returns `None` ends the loop with
`True`; a parsed status logs progress and continues; an interrupt ends
the loop with `False`.  The store is threaded through unchanged because
the source loop never reads or writes the local job store, and the only
remote command it ever issues is the squeue query. -/
def monitor_job (job_id : String) (store : StoreFile) :
    List PollEvent → MonitorResult
  | [] => ⟨none, [], store⟩
  | .interrupt :: _ => ⟨some false, [], store⟩
  | .poll o :: rest =>
    match check_job_status o with
    | none => ⟨some true, [squeue_status_command job_id], store⟩
    | some _ =>
      let r := monitor_job job_id store rest
      ⟨r.result, squeue_status_command job_id :: r.cmds, r.store⟩

/-- Trace of a monitor run that is interrupted after `pre` successful
polls (each returning a parsed queue entry), with `rest` the events that
would have followed. -/
def detachTrace (pre : List CmdOutcome) (rest : List PollEvent) : List PollEvent :=
  pre.map PollEvent.poll ++ PollEvent.interrupt :: rest

/-- Character list of the GPU resource directive marker. -/
def gresPat : List Char := "#SBATCH --gres=gpu:".data

/-- A segment that cannot contribute or enable a spurious occurrence of
`pat` (which starts with `#`): template literals must not end in a
nonempty proper prefix of `pat`, interpolated values must not contain
`#`. -/
def segOk (pat : List Char) : Seg → Prop
  | .lit s => cleanBreak pat s.data = true
  | .var s => '#' ∉ s.data

instance (pat : List Char) (sg : Seg) : Decidable (segOk pat sg) :=
  match sg with
  | .lit s => inferInstanceAs (Decidable (cleanBreak pat s.data = true))
  | .var s => inferInstanceAs (Decidable ('#' ∉ s.data))

/-- Occurrences of `pat` inside the template literal segments. -/
def litCount (pat : List Char) : List Seg → Nat
  | [] => 0
  | .lit s :: r => countOcc pat s.data + litCount pat r
  | .var _ :: r => litCount pat r

/-- The interpolated values of one rendered script contain no `#`
character, so the only `#SBATCH` directives in the script are the ones
of the template. -/
def benign (tool participant_label dataset : String) (args : Args)
    (hpc_rawdata hpc_derivatives : Option String) (hpc_apptainer_dir : String)
    (participants_text : Option String) : Prop :=
  ('#' ∉ (jobName tool participant_label dataset args).data) ∧
  ('#' ∉ args.slurm_time.data) ∧
  ('#' ∉ args.slurm_mem.data) ∧
  ('#' ∉ (args.slurm_partition.getD "").data) ∧
  ('#' ∉ (pyOr hpc_rawdata "$GLOBALSCRATCH/rawdata").data) ∧
  ('#' ∉ (pyOr hpc_derivatives "$GLOBALSCRATCH/derivatives").data) ∧
  ('#' ∉ dataset.data) ∧
  ('#' ∉ (meldVersion args).data) ∧
  ('#' ∉ (subjectsListContent args participants_text).data) ∧
  ('#' ∉ (harmoCodeOf args participant_label).data) ∧
  ('#' ∉ (fsLicenseArg args).data) ∧
  ('#' ∉ (apptainerImg args hpc_apptainer_dir).data) ∧
  ('#' ∉ (mainCmd args participant_label hpc_apptainer_dir).data)

instance (tool participant_label dataset : String) (args : Args)
    (hpc_rawdata hpc_derivatives : Option String) (hpc_apptainer_dir : String)
    (participants_text : Option String) :
    Decidable (benign tool participant_label dataset args
      hpc_rawdata hpc_derivatives hpc_apptainer_dir participants_text) := by
  unfold benign
  infer_instance

/-- A concrete well-formed argument set for evaluations: user and image
directory present, no GPU requested. -/
def sampleArgs : Args :=
  { slurm_user := some "arovai", slurm_host := "lucia", slurm_apptainer_dir := some "/apps", slurm_time := "4:00:00", slurm_mem := "16G", slurm_gpus := 1, no_gpu := true }

/-- A concrete argument set that requests zero GPUs without the no-GPU
flag. -/
def zeroGpuArgs : Args :=
  { slurm_user := some "arovai", slurm_host := "lucia", slurm_apptainer_dir := some "/apps", slurm_time := "4:00:00", slurm_mem := "16G", slurm_gpus := 0, no_gpu := false }

/-- A transport environment where every step succeeds and sbatch
answers with a fresh job id. -/
def sampleEnvOk : SubmitEnv :=
  { ssh_ok := true, mkdir_ok := true, scp_ok := true, sbatch_result := some "Submitted batch job 55821" }

end Slurm

/-! ## Helper lemmas -/

theorem asciiUpper_idem (c : Char) : asciiUpper (asciiUpper c) = asciiUpper c := by
  by_cases h1 : c = 'a'; · subst h1; decide
  by_cases h2 : c = 'b'; · subst h2; decide
  by_cases h3 : c = 'c'; · subst h3; decide
  by_cases h4 : c = 'd'; · subst h4; decide
  by_cases h5 : c = 'e'; · subst h5; decide
  by_cases h6 : c = 'f'; · subst h6; decide
  by_cases h7 : c = 'g'; · subst h7; decide
  by_cases h8 : c = 'h'; · subst h8; decide
  by_cases h9 : c = 'i'; · subst h9; decide
  by_cases h10 : c = 'j'; · subst h10; decide
  by_cases h11 : c = 'k'; · subst h11; decide
  by_cases h12 : c = 'l'; · subst h12; decide
  by_cases h13 : c = 'm'; · subst h13; decide
  by_cases h14 : c = 'n'; · subst h14; decide
  by_cases h15 : c = 'o'; · subst h15; decide
  by_cases h16 : c = 'p'; · subst h16; decide
  by_cases h17 : c = 'q'; · subst h17; decide
  by_cases h18 : c = 'r'; · subst h18; decide
  by_cases h19 : c = 's'; · subst h19; decide
  by_cases h20 : c = 't'; · subst h20; decide
  by_cases h21 : c = 'u'; · subst h21; decide
  by_cases h22 : c = 'v'; · subst h22; decide
  by_cases h23 : c = 'w'; · subst h23; decide
  by_cases h24 : c = 'x'; · subst h24; decide
  by_cases h25 : c = 'y'; · subst h25; decide
  by_cases h26 : c = 'z'; · subst h26; decide
  have hc : asciiUpper c = c := by
    unfold asciiUpper
    simp only [if_neg h1, if_neg h2, if_neg h3, if_neg h4, if_neg h5, if_neg h6, if_neg h7,
      if_neg h8, if_neg h9, if_neg h10, if_neg h11, if_neg h12, if_neg h13, if_neg h14,
      if_neg h15, if_neg h16, if_neg h17, if_neg h18, if_neg h19, if_neg h20, if_neg h21,
      if_neg h22, if_neg h23, if_neg h24, if_neg h25, if_neg h26]
  rw [hc, hc]

theorem pyUpper_idem (s : String) : pyUpper (pyUpper s) = pyUpper s := by
  show (⟨(s.data.map asciiUpper).map asciiUpper⟩ : String) = ⟨s.data.map asciiUpper⟩
  rw [List.map_map]
  exact congrArg String.mk (List.map_congr_left fun c _ => asciiUpper_idem c)

theorem state_to_status_pyUpper (s : String) (r : Option String) :
    state_to_status (pyUpper s) r = state_to_status s r := by
  simp only [state_to_status, pyUpper_idem]

theorem countOcc_nil {pat : List Char} (h : pat ≠ []) : countOcc pat [] = 0 := by
  cases pat with
  | nil => exact absurd rfl h
  | cons c t => simp [countOcc, List.isPrefixOf]

theorem isPrefixOf_append_of_le {pat a b : List Char} (h : pat.length ≤ a.length) :
    pat.isPrefixOf (a ++ b) = pat.isPrefixOf a := by
  rw [Bool.eq_iff_iff, List.isPrefixOf_iff_prefix, List.isPrefixOf_iff_prefix,
    List.prefix_iff_eq_take, List.prefix_iff_eq_take, List.take_append_of_le_length h]

theorem countOcc_append_of_noStraddle {pat : List Char} (hne : pat ≠ []) :
    ∀ {a : List Char} (b : List Char),
      (∀ k, k < pat.length → 0 < k → ¬ (pat.take k <:+ a)) →
      countOcc pat (a ++ b) = countOcc pat a + countOcc pat b := by
  intro a
  induction a with
  | nil =>
    intro b _
    simp [countOcc_nil hne]
  | cons x a' ih =>
    intro b hcb
    have hstep : ∀ k, k < pat.length → 0 < k → ¬ (pat.take k <:+ a') := by
      intro k hk h0 hs
      exact hcb k hk h0 (hs.trans (List.suffix_cons x a'))
    have heq : pat.isPrefixOf (x :: (a' ++ b)) = pat.isPrefixOf (x :: a') := by
      by_cases hlen : pat.length ≤ (x :: a').length
      · rw [show x :: (a' ++ b) = (x :: a') ++ b from (List.cons_append x a' b).symm]
        exact isPrefixOf_append_of_le hlen
      · have h1 : pat.isPrefixOf (x :: a') = false := by
          cases hP : pat.isPrefixOf (x :: a')
          · rfl
          · exfalso
            have hle := (List.isPrefixOf_iff_prefix.mp hP).length_le
            simp only [List.length_cons] at hle hlen
            omega
        have h2 : pat.isPrefixOf (x :: (a' ++ b)) = false := by
          cases hP : pat.isPrefixOf (x :: (a' ++ b))
          · rfl
          · exfalso
            have hpre : pat <+: (x :: a') ++ b := by
              rw [List.cons_append]
              exact List.isPrefixOf_iff_prefix.mp hP
            have hxa : (x :: a') <+: pat := by
              refine List.prefix_of_prefix_length_le (List.prefix_append (x :: a') b) hpre ?_
              simp only [List.length_cons] at hlen ⊢
              omega
            have htake : pat.take (x :: a').length = x :: a' :=
              (List.prefix_iff_eq_take.mp hxa).symm
            refine hcb (x :: a').length ?_ ?_ ?_
            · simp only [List.length_cons] at hlen ⊢
              omega
            · simp
            · rw [htake]
        rw [h1, h2]
    simp only [List.cons_append, countOcc, List.append_eq]
    rw [ih b hstep]
    simp only [heq]
    omega

theorem countOcc_append_of_head_not_mem {pat : List Char} {c : Char}
    (hhd : pat.head? = some c) :
    ∀ {a : List Char} (b : List Char), c ∉ a →
      countOcc pat (a ++ b) = countOcc pat b := by
  intro a
  induction a with
  | nil => intro b _; rfl
  | cons x a' ih =>
    intro b hmem
    obtain ⟨tl, rfl⟩ : ∃ tl, pat = c :: tl := by
      cases pat with
      | nil => simp at hhd
      | cons p pt =>
        simp only [List.head?_cons, Option.some.injEq] at hhd
        exact ⟨pt, by rw [hhd]⟩
    have hfalse : (c :: tl).isPrefixOf (x :: (a' ++ b)) = false := by
      cases hP : (c :: tl).isPrefixOf (x :: (a' ++ b))
      · rfl
      · exfalso
        have hpre := List.isPrefixOf_iff_prefix.mp hP
        have hcx : c = x := (List.cons_prefix_cons.mp hpre).1
        exact hmem (hcx ▸ List.mem_cons_self x a')
    have hrest : c ∉ a' := fun h => hmem (List.mem_cons_of_mem x h)
    simp only [List.cons_append, countOcc, hfalse, List.append_eq]
    rw [ih b hrest]
    simp

theorem cleanBreak_spec {pat a : List Char} (h : cleanBreak pat a = true) :
    ∀ k, k < pat.length → 0 < k → ¬ (pat.take k <:+ a) := by
  intro k hk h0 hs
  have hall := List.all_eq_true.mp h k (List.mem_range.mpr hk)
  rcases (Bool.or_eq_true _ _).mp hall with h1 | h2
  · have : k = 0 := by simpa using h1
    omega
  · rw [Bool.not_eq_true'] at h2
    exact absurd (List.isSuffixOf_iff_suffix.mpr hs) (by simp [h2])

namespace Slurm

theorem renderSegs_append (xs ys : List Seg) :
    renderSegs (xs ++ ys) = renderSegs xs ++ renderSegs ys := by
  induction xs with
  | nil =>
    show renderSegs ys = "" ++ renderSegs ys
    rfl
  | cons sg rest ih =>
    show sg.str ++ renderSegs (rest ++ ys) = sg.str ++ renderSegs rest ++ renderSegs ys
    rw [ih, String.append_assoc]

theorem litCount_append (pat : List Char) (xs ys : List Seg) :
    litCount pat (xs ++ ys) = litCount pat xs + litCount pat ys := by
  induction xs with
  | nil => simp [litCount]
  | cons sg rest ih =>
    cases sg with
    | lit s => simp only [List.cons_append, litCount, List.append_eq, ih, Nat.add_assoc]
    | var s => simp only [List.cons_append, litCount, List.append_eq, ih]

theorem countOcc_renderSegs {pat : List Char} (hne : pat ≠ [])
    (hhd : pat.head? = some '#') :
    ∀ {segs : List Seg}, (∀ sg ∈ segs, segOk pat sg) →
      countOcc pat (renderSegs segs).data = litCount pat segs := by
  intro segs
  induction segs with
  | nil =>
    intro _
    simpa [renderSegs, litCount] using countOcc_nil hne
  | cons sg rest ih =>
    intro h
    have hrest := fun s hm => h s (List.mem_cons_of_mem _ hm)
    have hsg := h sg (List.mem_cons_self sg rest)
    cases sg with
    | lit s =>
      show countOcc pat (s ++ renderSegs rest).data = countOcc pat s.data + litCount pat rest
      rw [String.data_append,
        countOcc_append_of_noStraddle hne _ (cleanBreak_spec hsg), ih hrest]
    | var s =>
      show countOcc pat (s ++ renderSegs rest).data = litCount pat rest
      rw [String.data_append, countOcc_append_of_head_not_mem hhd _ hsg, ih hrest]

end Slurm

theorem get_after_upsert (j : JobInfo) :
    ∀ es : List (String × StoredEntry),
      get_job_by_id (StoreFile.wellFormed
        (upsert j.job_id (StoredEntry.good j) es)) j.job_id = .ok (some j) := by
  intro es
  induction es with
  | nil =>
    simp [get_job_by_id, load_all_jobs, upsert, List.lookup, Except.map]
  | cons e rest ih =>
    obtain ⟨k', v'⟩ := e
    by_cases hk : k' = j.job_id
    · simp [get_job_by_id, load_all_jobs, upsert, hk, List.lookup, Except.map]
    · have hne : (j.job_id == k') = false := by
        simp [Ne.symm hk]
      cases v' with
      | good j' =>
        simp only [get_job_by_id, load_all_jobs, upsert, if_neg hk, List.filterMap_cons,
          Except.map] at ih ⊢
        simpa [List.lookup, hne] using ih
      | bad =>
        simp only [get_job_by_id, load_all_jobs, upsert, if_neg hk, List.filterMap_cons,
          Except.map] at ih ⊢
        simpa using ih

/-! ## Claim theorems -/

/-- C8 counterexample: a backing file holding syntactically valid JSON
that is not an object — a JSON array, say — defeats the claim: reading
the store raises `AttributeError` to the caller instead of returning an
empty result, and a subsequent save raises `TypeError` instead of
succeeding, because only decode and IO errors are caught. -/
theorem C8_counterexample :
    load_all_jobs StoreFile.validNonObject = .error PyExn.attributeError ∧
    get_job_by_id StoreFile.validNonObject "55821" = .error PyExn.attributeError ∧
    save_job_info sampleJob StoreFile.validNonObject = .error PyExn.typeError := by
  exact ⟨rfl, rfl, rfl⟩

/-- C8 amended: an absent backing file and one whose JSON fails to
decode degrade to the empty store without raising; from any file state
other than the valid-non-object one, a save succeeds and writes the
record through so a later get retrieves it; but a backing file that
parses to a non-object JSON value makes the read raise `AttributeError`
and the save raise `TypeError`. -/
theorem C8_store_resilience_amended :
    load_all_jobs StoreFile.absent = .ok [] ∧
    load_all_jobs StoreFile.malformed = .ok [] ∧
    (∀ job_id, get_job_by_id StoreFile.absent job_id = .ok none) ∧
    (∀ job_id, get_job_by_id StoreFile.malformed job_id = .ok none) ∧
    (∀ f j, f ≠ StoreFile.validNonObject →
      ∃ f', save_job_info j f = .ok f' ∧ get_job_by_id f' j.job_id = .ok (some j)) ∧
    load_all_jobs StoreFile.validNonObject = .error PyExn.attributeError ∧
    (∀ j, save_job_info j StoreFile.validNonObject = .error PyExn.typeError) := by
  refine ⟨rfl, rfl, fun _ => rfl, fun _ => rfl, ?_, rfl, fun _ => rfl⟩
  intro f j hf
  cases f with
  | absent => exact ⟨_, rfl, get_after_upsert j []⟩
  | malformed => exact ⟨_, rfl, get_after_upsert j []⟩
  | validNonObject => exact absurd rfl hf
  | wellFormed es => exact ⟨_, rfl, get_after_upsert j es⟩

/-- C8 witness: a save over a malformed prior file succeeds and the
record is retrievable afterwards. -/
theorem C8_store_resilience_amended_witness :
    (StoreFile.malformed ≠ StoreFile.validNonObject) ∧
    (∃ f', save_job_info sampleJob StoreFile.malformed = .ok f' ∧
      get_job_by_id f' sampleJob.job_id = .ok (some sampleJob)) :=
  ⟨by decide, C8_store_resilience_amended.2.2.2.2.1 StoreFile.malformed sampleJob (by decide)⟩

/-- C1: the status query maps a historical `COMPLETED` state to the
`Completed` category regardless of the exit code: at exit code 1 with a
`TIME_LIMIT` end reason it still answers `Completed`, not the `TimedOut`
the specification demands, while the sibling derivation
`JobInfo.status_category` on the very same fields does answer
`TimedOut`. -/
theorem C1_completed_not_demoted_eval :
    (check_job_status none
      (some { job_id := "55821", state := "COMPLETED", exit_code := some 1, reason := some "TIME_LIMIT" })).1
        = JobStatus.completed ∧
    JobStatus.completed ≠ JobStatus.timeout ∧
    JobInfo.status_category
      { job_id := "55821", tool := "meld_graph", dataset := "ds001", participant := "01", submit_time := "t", state := "COMPLETED", exit_code := some 1, reason := some "TIME_LIMIT" }
        = JobStatus.timeout := by
  exact ⟨by decide, by decide, by decide⟩

/-- C2 counterexample: a live-queue entry with state `COMPLETED` is
mapped to `Completed`, not to the `Error` the claim assigns to every
live state other than pending or running. -/
theorem C2_counterexample :
    (check_job_status (some { job_id := "77", state := "COMPLETED" }) none).1
        = JobStatus.completed ∧ JobStatus.completed ≠ JobStatus.error := by
  exact ⟨by decide, by decide⟩

/-- C2 amended: a live-queue entry always wins and is mapped through
`_state_to_status` with no reason: pending and running states map as the
claim says, but `COMPLETED` maps to `Completed`, `CANCELLED` to
`Cancelled` and `FAILED`/`NODE_FAIL` to `Failed`; only a state outside
the recognised set maps to `Error`.  The historical result is never
consulted. -/
theorem C2_live_wins_mapping (live : SqueueInfo) (hist : Option SacctInfo) :
    (check_job_status (some live) hist).1 = state_to_status live.state none ∧
    (∀ hist', (check_job_status (some live) hist').1 = (check_job_status (some live) hist).1) ∧
    ((pyUpper live.state = "PENDING" ∨ pyUpper live.state = "CONFIGURING") →
      (check_job_status (some live) hist).1 = JobStatus.pending) ∧
    ((pyUpper live.state = "RUNNING" ∨ pyUpper live.state = "STAGE_OUT") →
      (check_job_status (some live) hist).1 = JobStatus.running) ∧
    (pyUpper live.state = "COMPLETED" →
      (check_job_status (some live) hist).1 = JobStatus.completed) ∧
    ((pyUpper live.state = "CANCELLED" ∨ pyUpper live.state = "CANCELLED+") →
      (check_job_status (some live) hist).1 = JobStatus.cancelled) ∧
    ((pyUpper live.state = "FAILED" ∨ pyUpper live.state = "NODE_FAIL") →
      (check_job_status (some live) hist).1 = JobStatus.failed) ∧
    (pyUpper live.state ∉ ["PENDING", "CONFIGURING", "RUNNING", "STAGE_OUT", "COMPLETED",
        "CANCELLED", "CANCELLED+", "FAILED", "NODE_FAIL"] →
      (check_job_status (some live) hist).1 = JobStatus.error) := by
  have hfst : (check_job_status (some live) hist).1 = state_to_status live.state none := by
    show state_to_status (pyUpper live.state) none = state_to_status live.state none
    exact state_to_status_pyUpper live.state none
  refine ⟨hfst, fun hist' => rfl, ?_, ?_, ?_, ?_, ?_, ?_⟩
  · rintro (h | h) <;> (rw [hfst]; simp only [state_to_status]; rw [h]; decide)
  · rintro (h | h) <;> (rw [hfst]; simp only [state_to_status]; rw [h]; decide)
  · intro h
    rw [hfst]; simp only [state_to_status]; rw [h]; decide
  · rintro (h | h) <;> (rw [hfst]; simp only [state_to_status]; rw [h]; decide)
  · rintro (h | h) <;> (rw [hfst]; simp only [state_to_status]; rw [h]; decide)
  · intro h
    simp only [List.mem_cons, List.not_mem_nil, or_false, not_or] at h
    obtain ⟨n1, n2, n3, n4, n5, n6, n7, n8, n9⟩ := h
    rw [hfst]
    simp [state_to_status, n1, n2, n3, n4, n5, n6, n7, n8, n9]

/-- C2 witness: at a concrete live entry in state `RUNNING`, the query
answers `Running`. -/
theorem C2_live_wins_mapping_witness :
    (pyUpper "RUNNING" = "RUNNING" ∨ pyUpper "RUNNING" = "STAGE_OUT") ∧
    (check_job_status (some { job_id := "7", state := "RUNNING" })
      (some { job_id := "7", state := "FAILED" })).1 = JobStatus.running :=
  ⟨by decide, (C2_live_wins_mapping { job_id := "7", state := "RUNNING" }
      (some { job_id := "7", state := "FAILED" })).2.2.2.1 (by decide)⟩

/-- C3 counterexample: on the same raw state `COMPLETED`, exit code 1
and absent reason, the query path answers `Completed` while the stored
record answers `Failed` — the two derivations are not one function. -/
theorem C3_counterexample :
    state_to_status "COMPLETED" none
      ≠ JobInfo.status_category
          { job_id := "9", tool := "t", dataset := "d", participant := "p", submit_time := "s", state := "COMPLETED", exit_code := some 1, reason := none } := by
  decide

/-- C3 amended: the two derivations agree on every raw state, exit code
and reason except exactly where they differ by construction: a
`COMPLETED` state with exit code other than zero, and a
`FAILED`/`NODE_FAIL` state whose reason mentions `TIME_LIMIT`. -/
theorem C3_derivations_agree (j : JobInfo)
    (hC : ¬ (pyUpper j.state = "COMPLETED" ∧ j.exit_code ≠ some 0))
    (hF : ¬ ((pyUpper j.state = "FAILED" ∨ pyUpper j.state = "NODE_FAIL") ∧
        reasonHas j.reason "TIME_LIMIT" = true)) :
    state_to_status j.state j.reason = j.status_category := by
  unfold state_to_status JobInfo.status_category
  by_cases h1 : pyUpper j.state = "PENDING" ∨ pyUpper j.state = "CONFIGURING"
  · simp [h1]
  · simp only [if_neg h1]
    by_cases h2 : pyUpper j.state = "RUNNING" ∨ pyUpper j.state = "STAGE_OUT"
    · simp [h2]
    · simp only [if_neg h2]
      by_cases h3 : pyUpper j.state = "COMPLETED"
      · have hex : j.exit_code = some 0 := by
          by_contra hne
          exact hC ⟨h3, hne⟩
        simp [h3, hex]
      · simp only [if_neg h3]
        by_cases h4 : pyUpper j.state = "CANCELLED" ∨ pyUpper j.state = "CANCELLED+"
        · simp [h4]
        · simp only [if_neg h4]
          by_cases h5 : pyUpper j.state = "FAILED" ∨ pyUpper j.state = "NODE_FAIL"
          · have hr : reasonHas j.reason "TIME_LIMIT" = false := by
              cases hR : reasonHas j.reason "TIME_LIMIT"
              · rfl
              · exact absurd ⟨h5, hR⟩ hF
            simp [h5, hr]
          · simp [h5]

namespace Slurm

/-- C5 counterexample: a poll whose status query timed out terminates
the monitoring loop at once with the completion outcome `true`; were the
loop to continue past it as the claim demands, the one-event trace would
end with the loop still running (`none`). -/
theorem C5_counterexample :
    (monitor_job "55821" StoreFile.absent [PollEvent.poll CmdOutcome.timedOut]).result
      = some true ∧
    some true ≠ (none : Option Bool) := by
  exact ⟨rfl, by decide⟩

/-- C5 amended: the monitor cannot distinguish a vanished job from a
failed poll: any poll whose status query yields `None` — job no longer
listed, query timeout, connection failure, or unparseable output —
terminates the loop with `True`, and only a parsed live entry lets the
loop continue to the next interval. -/
theorem C5_any_none_terminates (job_id : String) (store : StoreFile)
    (o : CmdOutcome) (rest : List PollEvent) :
    (check_job_status o = none →
      (monitor_job job_id store (PollEvent.poll o :: rest)).result = some true) ∧
    (∀ st, check_job_status o = some st →
      (monitor_job job_id store (PollEvent.poll o :: rest)).result
        = (monitor_job job_id store rest).result) ∧
    check_job_status CmdOutcome.timedOut = none ∧
    check_job_status CmdOutcome.raised = none := by
  refine ⟨?_, ?_, rfl, rfl⟩
  · intro h
    simp [monitor_job, h]
  · intro st h
    simp [monitor_job, h]

/-- C5 witness: a timed-out poll ends the loop with `true`. -/
theorem C5_any_none_terminates_witness :
    check_job_status CmdOutcome.timedOut = none ∧
    (monitor_job "1" StoreFile.absent [PollEvent.poll CmdOutcome.timedOut]).result
      = some true :=
  ⟨rfl, (C5_any_none_terminates "1" StoreFile.absent CmdOutcome.timedOut []).1 rfl⟩

/-- C9: an interrupt during the watch — after any number of polls that
still saw the job in the queue — stops the loop with the detached
outcome `false`, distinct from the completion outcome `true`; the local
job store is left exactly as it was, and every remote command the loop
ever issued is the squeue status query, never a cancel command. -/
theorem C9_detached_outcome (job_id : String) (store : StoreFile)
    (pre : List CmdOutcome) (rest : List PollEvent)
    (hpre : ∀ o ∈ pre, check_job_status o ≠ none) :
    (monitor_job job_id store (detachTrace pre rest)).result = some false ∧
    some false ≠ some true ∧
    (monitor_job job_id store (detachTrace pre rest)).store = store ∧
    (∀ c ∈ (monitor_job job_id store (detachTrace pre rest)).cmds,
      c = squeue_status_command job_id) := by
  induction pre with
  | nil =>
    refine ⟨rfl, by decide, rfl, ?_⟩
    intro c hc
    simp [detachTrace, monitor_job] at hc
  | cons o pre' ih =>
    have ho := hpre o (List.mem_cons_self o pre')
    obtain ⟨st, hst⟩ : ∃ st, check_job_status o = some st := by
      cases h : check_job_status o
      · exact absurd h ho
      · exact ⟨_, rfl⟩
    have ih' := ih fun o' hm => hpre o' (List.mem_cons_of_mem o hm)
    rw [show detachTrace (o :: pre') rest = PollEvent.poll o :: detachTrace pre' rest from rfl]
    simp only [monitor_job, hst]
    refine ⟨ih'.1, by decide, ih'.2.2.1, ?_⟩
    intro c hc
    rcases List.mem_cons.mp hc with h | h
    · exact h
    · exact ih'.2.2.2 c h

/-- C9 witness: one running poll, then an interrupt. -/
theorem C9_detached_outcome_witness :
    (∀ o ∈ [CmdOutcome.done 0 "STATE|USED|LEFT\nRUNNING|1:00|2:00"],
      check_job_status o ≠ none) ∧
    (monitor_job "55821" StoreFile.absent
      (detachTrace [CmdOutcome.done 0 "STATE|USED|LEFT\nRUNNING|1:00|2:00"] [])).result
      = some false :=
  ⟨by decide,
   (C9_detached_outcome "55821" StoreFile.absent
     [CmdOutcome.done 0 "STATE|USED|LEFT\nRUNNING|1:00|2:00"] [] (by decide)).1⟩

/-- C4 counterexample: a fully successful submission returns the parsed
job id `55821`, yet the job store is exactly what it was before — the
empty store — so it does not contain a record for the job with raw
state `UNKNOWN`. -/
theorem C4_counterexample :
    submit_slurm_job "meld_graph" "01" "ds001" sampleArgs none sampleEnvOk StoreFile.absent
      = .ok (some "55821", StoreFile.absent) ∧
    get_job_by_id StoreFile.absent "55821" = .ok none := by
  exact ⟨rfl, rfl⟩

/-- C4 amended: when the scheduler submission succeeds,
`submit_slurm_job` returns the job id parsed from the sbatch output and
performs no store write at all: the job store after the call is the
store before it, for every prior store state. -/
theorem C4_submit_returns_id_store_untouched (tool p d : String) (args : Args)
    (pt : Option String) (env : SubmitEnv) (store : StoreFile) (out : String)
    (hval : validate_slurm_config args = .ok ())
    (htool : tool = "meld_graph")
    (hssh : env.ssh_ok = true) (hmk : env.mkdir_ok = true) (hscp : env.scp_ok = true)
    (hsb : env.sbatch_result = some out) :
    submit_slurm_job tool p d args pt env store
      = .ok (parse_sbatch_output (pyStrip out), store) ∧
    (∀ res, submit_slurm_job tool p d args pt env store = .ok res → res.2 = store) := by
  subst htool
  have h1 : submit_slurm_job "meld_graph" p d args pt env store
      = .ok (parse_sbatch_output (pyStrip out), store) := by
    simp [submit_slurm_job, hval, hssh, hmk, hscp, hsb, generate_slurm_script]
  refine ⟨h1, ?_⟩
  intro res hres
  rw [h1] at hres
  injection hres with h2
  rw [← h2]

/-- C4 witness: the concrete successful submission of the
counterexample, through the amended theorem. -/
theorem C4_submit_returns_id_store_untouched_witness :
    validate_slurm_config sampleArgs = .ok () ∧
    submit_slurm_job "meld_graph" "01" "ds001" sampleArgs none sampleEnvOk StoreFile.malformed
      = .ok (parse_sbatch_output (pyStrip "Submitted batch job 55821"), StoreFile.malformed) :=
  ⟨rfl, (C4_submit_returns_id_store_untouched "meld_graph" "01" "ds001" sampleArgs none
    sampleEnvOk StoreFile.malformed "Submitted batch job 55821"
    rfl rfl rfl rfl rfl rfl).1⟩

/-- C7 counterexample: on the output `Submitted batch job 123 456` the
parser returns the fourth whitespace token `123`, not the last token
`456` the claim designates. -/
theorem C7_counterexample :
    parse_sbatch_output "Submitted batch job 123 456" = some "123" ∧
    (pySplitWs "Submitted batch job 123 456").getLast? = some "456" ∧
    ("123" : String) ≠ "456" := by
  exact ⟨by decide, by decide, by decide⟩

/-- C7 amended: a job id is returned exactly when the output contains
the phrase `Submitted batch job`, splits into at least four whitespace
tokens, and its fourth token is purely numeric; the returned id is that
fourth token.  Any other shape gives `none`, a parse failure. -/
theorem C7_parse_shape (output : String) :
    ((∃ j, parse_sbatch_output output = some j) ↔
      (strContains output "Submitted batch job" = true ∧
       4 ≤ (pySplitWs output).length ∧
       pyIsDigit ((pySplitWs output).getD 3 "") = true)) ∧
    (∀ j, parse_sbatch_output output = some j → j = (pySplitWs output).getD 3 "") := by
  unfold parse_sbatch_output
  by_cases h1 : strContains output "Submitted batch job" = true
  · rw [if_pos h1]
    by_cases h2 : 4 ≤ (pySplitWs output).length
    · rw [if_pos h2]
      by_cases h3 : pyIsDigit ((pySplitWs output).getD 3 "") = true
      · rw [if_pos h3]
        refine ⟨⟨fun _ => ⟨h1, h2, h3⟩, fun _ => ⟨_, rfl⟩⟩, ?_⟩
        intro j hj
        exact (Option.some.inj hj).symm
      · rw [if_neg h3]
        refine ⟨⟨?_, fun hc => absurd hc.2.2 h3⟩, ?_⟩
        · rintro ⟨j, hj⟩
          exact absurd hj (by simp)
        · intro j hj
          exact absurd hj (by simp)
    · rw [if_neg h2]
      refine ⟨⟨?_, fun hc => absurd hc.2.1 h2⟩, ?_⟩
      · rintro ⟨j, hj⟩
        exact absurd hj (by simp)
      · intro j hj
        exact absurd hj (by simp)
  · rw [if_neg h1]
    refine ⟨⟨?_, fun hc => absurd hc.1 h1⟩, ?_⟩
    · rintro ⟨j, hj⟩
      exact absurd hj (by simp)
    · intro j hj
      exact absurd hj (by simp)

/-- C7 witness: the nominal sbatch output parses to its fourth token. -/
theorem C7_parse_shape_witness :
    parse_sbatch_output "Submitted batch job 55821" = some "55821" ∧
    ("55821" : String) = (pySplitWs "Submitted batch job 55821").getD 3 "" :=
  ⟨by decide, (C7_parse_shape "Submitted batch job 55821").2 "55821" (by decide)⟩

/-- C10: for every tool other than `meld_graph` the script generator
raises `NotImplementedError` instead of producing script text, and
therefore the submitter can never return a job id for such a tool. -/
theorem C10_only_meld_graph (tool p d : String) (args : Args)
    (hr hd : Option String) (ha : String) (pt : Option String)
    (htool : tool ≠ "meld_graph") :
    generate_slurm_script tool p d args hr hd ha pt
      = .error ("SLURM submission for " ++ tool ++ " not yet implemented") ∧
    (∀ env store jid store2,
      submit_slurm_job tool p d args pt env store ≠ .ok (some jid, store2)) := by
  constructor
  · simp [generate_slurm_script, htool]
  · intro env store jid store2 hok
    unfold submit_slurm_job at hok
    cases hval : validate_slurm_config args with
    | error e =>
      rw [hval] at hok
      exact absurd hok (by simp)
    | ok u =>
      rw [hval] at hok
      cases hb : env.ssh_ok with
      | false => simp [hb] at hok
      | true => simp [hb, generate_slurm_script, htool] at hok

theorem gresPat_ne : gresPat ≠ [] := by decide

theorem gresPat_head : gresPat.head? = some '#' := by decide

theorem digitChar_ne_hash (n : Nat) : Nat.digitChar n ≠ '#' := by
  by_cases h0 : n = 0; · subst h0; decide
  by_cases h1 : n = 1; · subst h1; decide
  by_cases h2 : n = 2; · subst h2; decide
  by_cases h3 : n = 3; · subst h3; decide
  by_cases h4 : n = 4; · subst h4; decide
  by_cases h5 : n = 5; · subst h5; decide
  by_cases h6 : n = 6; · subst h6; decide
  by_cases h7 : n = 7; · subst h7; decide
  by_cases h8 : n = 8; · subst h8; decide
  by_cases h9 : n = 9; · subst h9; decide
  by_cases h10 : n = 10; · subst h10; decide
  by_cases h11 : n = 11; · subst h11; decide
  by_cases h12 : n = 12; · subst h12; decide
  by_cases h13 : n = 13; · subst h13; decide
  by_cases h14 : n = 14; · subst h14; decide
  by_cases h15 : n = 15; · subst h15; decide
  have hstar : Nat.digitChar n = '*' := by
    unfold Nat.digitChar
    simp only [if_neg h0, if_neg h1, if_neg h2, if_neg h3, if_neg h4, if_neg h5, if_neg h6,
      if_neg h7, if_neg h8, if_neg h9, if_neg h10, if_neg h11, if_neg h12, if_neg h13,
      if_neg h14, if_neg h15]
  rw [hstar]
  decide

theorem toDigitsCore_ne_hash (b fuel : Nat) :
    ∀ (n : Nat) (ds : List Char), (∀ c ∈ ds, c ≠ '#') →
      ∀ c ∈ Nat.toDigitsCore b fuel n ds, c ≠ '#' := by
  induction fuel with
  | zero =>
    intro n ds hds c hc
    simp only [Nat.toDigitsCore] at hc
    exact hds c hc
  | succ f ih =>
    intro n ds hds c hc
    simp only [Nat.toDigitsCore] at hc
    have hds' : ∀ c' ∈ Nat.digitChar (n % b) :: ds, c' ≠ '#' := by
      intro c' hc'
      rcases List.mem_cons.mp hc' with rfl | h
      · exact digitChar_ne_hash _
      · exact hds c' h
    split at hc
    · exact hds' c hc
    · exact ih (n / b) (Nat.digitChar (n % b) :: ds) hds' c hc

theorem natRepr_hash_free (n : Nat) : '#' ∉ (toString n).data := by
  intro hmem
  exact toDigitsCore_ne_hash 10 (n + 1) n [] (by simp) '#' hmem rfl

theorem gpuFlag_hash_free (args : Args) : '#' ∉ (gpuFlag args).data := by
  unfold gpuFlag
  split <;> decide

theorem forall_mem_seg_cons {p : Seg → Prop} {a : Seg} {l : List Seg}
    (ha : p a) (hl : ∀ x ∈ l, p x) : ∀ x ∈ a :: l, p x :=
  List.forall_mem_cons.mpr ⟨ha, hl⟩

theorem forall_mem_seg_ite {p : Seg → Prop} {c : Prop} [Decidable c] {l1 l2 : List Seg}
    (h1 : ∀ x ∈ l1, p x) (h2 : ∀ x ∈ l2, p x) : ∀ x ∈ (if c then l1 else l2), p x := by
  split
  · exact h1
  · exact h2

theorem headerSegs_ok (tool p d : String) (args : Args)
    (hjn : '#' ∉ (jobName tool p d args).data)
    (ht : '#' ∉ args.slurm_time.data) (hm : '#' ∉ args.slurm_mem.data)
    (hp : '#' ∉ (args.slurm_partition.getD "").data) :
    ∀ sg ∈ headerSegs tool p d args, segOk gresPat sg := by
  unfold headerSegs
  refine List.forall_mem_append.mpr ⟨List.forall_mem_append.mpr ⟨?_, ?_⟩, ?_⟩
  · exact forall_mem_seg_cons (by decide) (forall_mem_seg_cons hjn
      (forall_mem_seg_cons (by decide) (List.forall_mem_nil _)))
  · refine forall_mem_seg_ite ?_ (List.forall_mem_nil _)
    exact forall_mem_seg_cons (by decide) (forall_mem_seg_cons hp
      (forall_mem_seg_cons (by decide) (List.forall_mem_nil _)))
  · exact forall_mem_seg_cons (by decide) (forall_mem_seg_cons ht
      (forall_mem_seg_cons (by decide) (forall_mem_seg_cons hm
      (forall_mem_seg_cons (by decide) (forall_mem_seg_cons hjn
      (forall_mem_seg_cons (by decide) (forall_mem_seg_cons hjn
      (forall_mem_seg_cons (by decide) (List.forall_mem_nil _)))))))))

theorem gresSegs_ok (args : Args) : ∀ sg ∈ gresSegs args, segOk gresPat sg := by
  unfold gresSegs
  refine forall_mem_seg_ite (List.forall_mem_nil _) ?_
  exact forall_mem_seg_cons (by decide) (forall_mem_seg_cons (natRepr_hash_free args.slurm_gpus)
    (forall_mem_seg_cons (by decide) (List.forall_mem_nil _)))

theorem meldSetupSegs_ok (d : String) (args : Args) (hr hd : Option String)
    (h1 : '#' ∉ (pyOr hr "$GLOBALSCRATCH/rawdata").data)
    (h2 : '#' ∉ (pyOr hd "$GLOBALSCRATCH/derivatives").data)
    (h3 : '#' ∉ d.data) (h4 : '#' ∉ (meldVersion args).data) :
    ∀ sg ∈ meldSetupSegs d args hr hd, segOk gresPat sg := by
  unfold meldSetupSegs
  exact forall_mem_seg_cons (by decide) (forall_mem_seg_cons h1
    (forall_mem_seg_cons (by decide) (forall_mem_seg_cons h2
    (forall_mem_seg_cons (by decide) (forall_mem_seg_cons h3
    (forall_mem_seg_cons (by decide) (forall_mem_seg_cons h4
    (forall_mem_seg_cons (by decide) (forall_mem_seg_cons (by decide)
    (forall_mem_seg_cons h3 (forall_mem_seg_cons (by decide)
    (forall_mem_seg_cons (by decide) (List.forall_mem_nil _)))))))))))))

theorem harmoSegs_ok (p : String) (args : Args) (pt : Option String) (ha : String)
    (h1 : '#' ∉ (subjectsListContent args pt).data)
    (h2 : '#' ∉ (harmoCodeOf args p).data)
    (h3 : '#' ∉ (fsLicenseArg args).data)
    (h4 : '#' ∉ (apptainerImg args ha).data) :
    ∀ sg ∈ harmoSegs p args pt ha, segOk gresPat sg := by
  unfold harmoSegs
  refine forall_mem_seg_ite (List.forall_mem_nil _) ?_
  exact forall_mem_seg_cons (by decide) (forall_mem_seg_cons h1
    (forall_mem_seg_cons (by decide) (forall_mem_seg_cons h2
    (forall_mem_seg_cons (by decide) (forall_mem_seg_cons (gpuFlag_hash_free args)
    (forall_mem_seg_cons (by decide) (forall_mem_seg_cons h3
    (forall_mem_seg_cons (by decide) (forall_mem_seg_cons h4
    (forall_mem_seg_cons (by decide) (forall_mem_seg_cons (by decide)
    (forall_mem_seg_cons (by decide) (forall_mem_seg_cons (by decide)
    (forall_mem_seg_cons (by decide) (forall_mem_seg_cons (by decide)
    (List.forall_mem_nil _))))))))))))))))

theorem footerSegs_ok (p : String) (args : Args) (ha : String)
    (h1 : '#' ∉ (fsLicenseArg args).data)
    (h2 : '#' ∉ (apptainerImg args ha).data)
    (h3 : '#' ∉ (mainCmd args p ha).data) :
    ∀ sg ∈ footerSegs p args ha, segOk gresPat sg := by
  unfold footerSegs
  exact forall_mem_seg_cons (by decide) (forall_mem_seg_cons (gpuFlag_hash_free args)
    (forall_mem_seg_cons (by decide) (forall_mem_seg_cons h1
    (forall_mem_seg_cons (by decide) (forall_mem_seg_cons h2
    (forall_mem_seg_cons (by decide) (forall_mem_seg_cons h3
    (forall_mem_seg_cons (by decide) (List.forall_mem_nil _)))))))))

theorem scriptSegs_ok (tool p d : String) (args : Args) (hr hd : Option String)
    (ha : String) (pt : Option String) (hb : benign tool p d args hr hd ha pt) :
    ∀ sg ∈ scriptSegs tool p d args hr hd ha pt, segOk gresPat sg := by
  obtain ⟨b1, b2, b3, b4, b5, b6, b7, b8, b9, b10, b11, b12, b13⟩ := hb
  unfold scriptSegs
  refine List.forall_mem_append.mpr ⟨List.forall_mem_append.mpr ⟨List.forall_mem_append.mpr
    ⟨List.forall_mem_append.mpr ⟨?_, ?_⟩, ?_⟩, ?_⟩, ?_⟩
  · exact headerSegs_ok tool p d args b1 b2 b3 b4
  · exact gresSegs_ok args
  · exact meldSetupSegs_ok d args hr hd b5 b6 b7 b8
  · exact forall_mem_seg_ite (harmoSegs_ok p args pt ha b9 b10 b11 b12)
      (List.forall_mem_nil _)
  · exact footerSegs_ok p args ha b11 b12 b13

theorem headerSegs_count (tool p d : String) (args : Args) :
    litCount gresPat (headerSegs tool p d args) = 0 := by
  unfold headerSegs
  rw [litCount_append, litCount_append]
  by_cases hpart : pyTruthy args.slurm_partition = true
  · rw [if_pos hpart]
    simp only [litCount]
    decide
  · rw [if_neg hpart]
    simp only [litCount]
    decide

theorem gresSegs_count (args : Args) :
    litCount gresPat (gresSegs args) = if args.no_gpu then 0 else 1 := by
  unfold gresSegs
  by_cases hng : args.no_gpu = true
  · rw [if_pos hng, if_pos hng]
    rfl
  · rw [if_neg hng, if_neg hng]
    simp only [litCount]
    decide

theorem meldSetupSegs_count (d : String) (args : Args) (hr hd : Option String) :
    litCount gresPat (meldSetupSegs d args hr hd) = 0 := by
  unfold meldSetupSegs
  simp only [litCount]
  decide

theorem harmoSegs_count (p : String) (args : Args) (pt : Option String) (ha : String) :
    litCount gresPat (harmoSegs p args pt ha) = 0 := by
  unfold harmoSegs
  by_cases hn : normalizedLines args pt = []
  · rw [if_pos hn]
    rfl
  · rw [if_neg hn]
    simp only [litCount]
    decide

theorem footerSegs_count (p : String) (args : Args) (ha : String) :
    litCount gresPat (footerSegs p args ha) = 0 := by
  unfold footerSegs
  simp only [litCount]
  decide

theorem scriptSegs_count (tool p d : String) (args : Args) (hr hd : Option String)
    (ha : String) (pt : Option String) :
    litCount gresPat (scriptSegs tool p d args hr hd ha pt)
      = if args.no_gpu then 0 else 1 := by
  unfold scriptSegs
  rw [litCount_append, litCount_append, litCount_append, litCount_append,
    headerSegs_count, gresSegs_count, meldSetupSegs_count, footerSegs_count]
  have hharmo : litCount gresPat
      (if args.harmonize then harmoSegs p args pt ha else []) = 0 := by
    by_cases hh : args.harmonize = true
    · rw [if_pos hh]
      exact harmoSegs_count p args pt ha
    · rw [if_neg hh]
      rfl
  rw [hharmo]
  by_cases hng : args.no_gpu = true <;> simp [hng]

theorem script_gres_directive (tool p d : String) (args : Args) (hr hd : Option String)
    (ha : String) (pt : Option String) (hb : benign tool p d args hr hd ha pt) :
    countOcc gresPat (renderSegs (scriptSegs tool p d args hr hd ha pt)).data
      = (if args.no_gpu then 0 else 1) ∧
    (args.no_gpu = false →
      ("#SBATCH --gres=gpu:" ++ toString args.slurm_gpus ++ "\n").data
        <:+: (renderSegs (scriptSegs tool p d args hr hd ha pt)).data) := by
  constructor
  · rw [countOcc_renderSegs gresPat_ne gresPat_head (scriptSegs_ok tool p d args hr hd ha pt hb)]
    exact scriptSegs_count tool p d args hr hd ha pt
  · intro hng
    have hgres : renderSegs (gresSegs args)
        = "#SBATCH --gres=gpu:" ++ toString args.slurm_gpus ++ "\n" := by
      unfold gresSegs
      rw [if_neg (by simp [hng])]
      show "#SBATCH --gres=gpu:" ++ (toString args.slurm_gpus ++ ("\n" ++ "")) = _
      rw [String.append_empty, ← String.append_assoc]
    unfold scriptSegs
    rw [renderSegs_append, renderSegs_append, renderSegs_append, renderSegs_append, hgres]
    refine ⟨(renderSegs (headerSegs tool p d args)).data,
      ((renderSegs (meldSetupSegs d args hr hd)) ++
       (renderSegs (if args.harmonize then harmoSegs p args pt ha else [])) ++
       (renderSegs (footerSegs p args ha))).data, ?_⟩
    simp [String.data_append, List.append_assoc]

/-- C6 counterexample: a descriptor that requests zero GPUs without the
no-GPU flag renders a script carrying one zero-GPU resource directive,
where the claim demands none for a GPU count of zero. -/
theorem C6_counterexample :
    zeroGpuArgs.no_gpu = false ∧ zeroGpuArgs.slurm_gpus = 0 ∧
    countOcc gresPat
      (renderSegs (scriptSegs "meld_graph" "01" "ds001" zeroGpuArgs none none "/apps" none)).data
      = 1 := by
  refine ⟨rfl, rfl, ?_⟩
  have h := (script_gres_directive "meld_graph" "01" "ds001" zeroGpuArgs none none "/apps" none
    (by decide)).1
  simpa using h

/-- C6 amended: the GPU resource directive is keyed on the no-GPU flag,
not on the count: for every descriptor with hash-free interpolated
fields whose script rendering succeeds, the script contains no
`#SBATCH --gres=gpu:` directive when the no-GPU flag is set, and exactly
one otherwise — carrying `slurm_gpus` verbatim, including a zero-GPU
directive when that count is 0. -/
theorem C6_gres_directive (tool p d : String) (args : Args) (hr hd : Option String)
    (ha : String) (pt : Option String) (script : String)
    (hb : benign tool p d args hr hd ha pt)
    (hgen : generate_slurm_script tool p d args hr hd ha pt = .ok script) :
    countOcc gresPat script.data = (if args.no_gpu then 0 else 1) ∧
    (args.no_gpu = false →
      ("#SBATCH --gres=gpu:" ++ toString args.slurm_gpus ++ "\n").data <:+: script.data) := by
  unfold generate_slurm_script at hgen
  by_cases htool : tool = "meld_graph"
  · rw [if_pos htool] at hgen
    have hscript : script = renderSegs (scriptSegs tool p d args hr hd ha pt) :=
      (Except.ok.inj hgen).symm
    subst hscript
    exact script_gres_directive tool p d args hr hd ha pt hb
  · rw [if_neg htool] at hgen
    exact absurd hgen (by simp)

/-- C6 witness: the no-GPU sample descriptor renders with no GPU
directive. -/
theorem C6_gres_directive_witness :
    benign "meld_graph" "01" "ds001" sampleArgs none none "/apps" none ∧
    countOcc gresPat
      (renderSegs (scriptSegs "meld_graph" "01" "ds001" sampleArgs none none "/apps" none)).data
      = 0 :=
  ⟨by decide, by
    have h := (C6_gres_directive "meld_graph" "01" "ds001" sampleArgs none none "/apps" none
      (renderSegs (scriptSegs "meld_graph" "01" "ds001" sampleArgs none none "/apps" none))
      (by decide) rfl).1
    simpa using h⟩

/-- C10 witness: the generator rejects the tool `freesurfer`. -/
theorem C10_only_meld_graph_witness :
    ("freesurfer" ≠ "meld_graph") ∧
    generate_slurm_script "freesurfer" "01" "ds001" sampleArgs none none "/apps" none
      = .error ("SLURM submission for " ++ "freesurfer" ++ " not yet implemented") :=
  ⟨by decide, (C10_only_meld_graph "freesurfer" "01" "ds001" sampleArgs none none "/apps" none
    (by decide)).1⟩

end Slurm

/-- C3 witness: at a concrete running record the two derivations agree. -/
theorem C3_derivations_agree_witness :
    (¬ (pyUpper "RUNNING" = "COMPLETED" ∧ (some 0 : Option Int) ≠ some 0)) ∧
    state_to_status "RUNNING" none
      = JobInfo.status_category
          { job_id := "5", tool := "t", dataset := "d", participant := "p", submit_time := "s", state := "RUNNING", exit_code := some 0, reason := none } :=
  ⟨by decide, C3_derivations_agree
    { job_id := "5", tool := "t", dataset := "d", participant := "p", submit_time := "s", state := "RUNNING", exit_code := some 0, reason := none }
    (by decide) (by decide)⟩

end Ln2t
